import Mathlib

/-!
Verification of the ChainProof server's API-key lifecycle and auth routes.

Shallow embedding of the JavaScript source:
* `models/APIKeySQL.js` — the `APIKey` record, `generateKey`, `isExpired`,
  `recordUsage`, `toJSON`.
* `routes/*` (auth router) — `register`, `login`, `createKey` (POST /api-keys),
  `listKeys` (GET /api-keys), `updateKey` (PATCH /api-keys/:keyId),
  `revokeKey` (DELETE /api-keys/:keyId).
* `metadata.js` — `TokenMetadataFetcher.validateTokenMint`.

Modelling conventions: timestamps are `Int` milliseconds since the epoch
(`new Date()` is passed in as a `now` parameter); nullable columns are
`Option`; the relational store is a `List` of records and `findOne` is
`List.find?` (first match in row order); JS exceptions on the external SDK
calls are `Except`; HTTP replies are a status code plus the JSON error
string or payload.
-/

namespace ChainProof

/-- The JSONB `permissions` column of `api_keys` (APIKeySQL.js):
five named boolean capabilities, all defaulting to `true`. -/
structure Permissions where
  analyze : Bool
  riskScore : Bool
  fullAnalysis : Bool
  batch : Bool
  registration : Bool
deriving DecidableEq, Repr

/-- The column default for `permissions` in APIKeySQL.js. -/
def defaultPermissions : Permissions :=
  { analyze := true, riskScore := true, fullAnalysis := true,
    batch := true, registration := true }

/-- The JSONB `rateLimit` column of `api_keys`. -/
structure RateLimit where
  requestsPerMinute : Nat
  requestsPerDay : Nat
deriving DecidableEq, Repr

/-- The column default for `rateLimit` in APIKeySQL.js. -/
def defaultRateLimit : RateLimit :=
  { requestsPerMinute := 60, requestsPerDay := 10000 }

/-- A row of the `api_keys` table (APIKeySQL.js). UUIDs are modelled as
`Nat` identifiers; `DATE` columns as `Int` epoch milliseconds, nullable
ones as `Option Int`. `createdAt` comes from `timestamps: true`. -/
structure APIKey where
  id : Nat
  key : String
  userId : Nat
  name : String
  isActive : Bool
  lastUsed : Option Int
  usageCount : Nat
  permissions : Permissions
  rateLimit : RateLimit
  expiresAt : Option Int
  createdAt : Int
deriving DecidableEq, Repr

/-- A row of the users table. The password-hash primitive is an external
collaborator; the stored hash is modelled by the password string it
verifies (see `comparePassword`). -/
structure User where
  id : Nat
  username : String
  email : String
  password : String
  isActive : Bool
  lastLogin : Option Int
  createdAt : Int
deriving DecidableEq, Repr

/-- Modelled from the spec: `comparePassword` lives in `UserSQL.js`, which
is not among the source files; the spec describes it as verification of a
candidate against the stored one-way hash ("one-way, salted, verifiable
via a constant-time compare"). It is modelled as equality with the unique
password the stored hash verifies. -/
def comparePassword (u : User) (candidate : String) : Bool :=
  u.password == candidate

/-- An HTTP error reply: status code plus the JSON `error` string
(every error body also carries `success: false`). -/
structure ErrorResponse where
  status : Nat
  error : String
deriving DecidableEq, Repr

/-! ## APIKey instance/static methods (APIKeySQL.js) -/

/-- `APIKey.generateKey` builds `cp_` + hex of 32 random bytes. The random
bytes are an input here: `hexDigit` maps a nibble to its lowercase hex
character as `Buffer.toString('hex')` does. -/
def hexDigit (n : Nat) : Char :=
  if n < 10 then Char.ofNat (48 + n) else Char.ofNat (87 + n)

/-- One byte rendered as two lowercase hex characters, high nibble first. -/
def byteToHex (b : Nat) : List Char :=
  [hexDigit (b / 16), hexDigit (b % 16)]

/-- `crypto.randomBytes(32).toString('hex')`: the hex rendering of a byte
list. -/
def bytesToHex (bytes : List Nat) : String :=
  ⟨bytes.flatMap byteToHex⟩

/-- `APIKey.generateKey()` (APIKeySQL.js): `prefix + '_' + hex`, with the
fixed prefix `cp`, applied to the 32 bytes drawn from the CSPRNG. -/
def generateKey (randomBytes : List Nat) : String :=
  "cp" ++ "_" ++ bytesToHex randomBytes

/-- `APIKey.prototype.isExpired` (APIKeySQL.js): `null` never expires,
otherwise `new Date() > this.expiresAt`. -/
def isExpired (now : Int) (k : APIKey) : Bool :=
  match k.expiresAt with
  | none => false
  | some t => now > t

/-- A lowercase hexadecimal character. -/
def isLowerHexDigit (c : Char) : Bool :=
  ('0' ≤ c && c ≤ '9') || ('a' ≤ c && c ≤ 'f')

/-! ## Serialization (APIKeySQL.js toJSON) and the key routes -/

/-- The loaded attribute set of a fetched APIKey instance (`this.get()`):
`key` is `none` when the query excluded the attribute (JS `undefined`). -/
structure APIKeyView where
  key : Option String
  id : Nat
  userId : Nat
  name : String
  isActive : Bool
  lastUsed : Option Int
  usageCount : Nat
  permissions : Permissions
  rateLimit : RateLimit
  expiresAt : Option Int
  createdAt : Int
deriving DecidableEq, Repr

/-- The attribute set of an instance fetched with all columns. -/
def valuesOf (k : APIKey) : APIKeyView :=
  { key := some k.key, id := k.id, userId := k.userId, name := k.name,
    isActive := k.isActive, lastUsed := k.lastUsed, usageCount := k.usageCount,
    permissions := k.permissions, rateLimit := k.rateLimit,
    expiresAt := k.expiresAt, createdAt := k.createdAt }

/-- `attributes: exclude ['key']` in the GET /api-keys query: the fetched
instance carries no `key` value. -/
def excludeKeyAttribute (v : APIKeyView) : APIKeyView :=
  { v with key := none }

/-- The serialized object produced by `APIKey.prototype.toJSON`: possibly a
`key` field, possibly a `keyPreview` field, plus the other columns. -/
structure APIKeyJSON where
  key : Option String
  keyPreview : Option String
  id : Nat
  userId : Nat
  name : String
  isActive : Bool
  lastUsed : Option Int
  usageCount : Nat
  permissions : Permissions
  rateLimit : RateLimit
  expiresAt : Option Int
  createdAt : Int
deriving DecidableEq, Repr

/-- `APIKey.prototype.toJSON` (APIKeySQL.js): copy the loaded values; when
`values.key` is truthy (present and nonempty), add
`keyPreview = '...' + key.slice(-8)` and delete `key`. When the `key`
attribute was excluded from the query, `values.key` is undefined (falsy) and
the branch is skipped, so no preview is added. -/
def toJSON (v : APIKeyView) : APIKeyJSON :=
  match v.key with
  | some s =>
    if s ≠ "" then
      { key := none, keyPreview := some ("..." ++ s.takeRight 8),
        id := v.id, userId := v.userId, name := v.name, isActive := v.isActive,
        lastUsed := v.lastUsed, usageCount := v.usageCount,
        permissions := v.permissions, rateLimit := v.rateLimit,
        expiresAt := v.expiresAt, createdAt := v.createdAt }
    else
      { key := some s, keyPreview := none,
        id := v.id, userId := v.userId, name := v.name, isActive := v.isActive,
        lastUsed := v.lastUsed, usageCount := v.usageCount,
        permissions := v.permissions, rateLimit := v.rateLimit,
        expiresAt := v.expiresAt, createdAt := v.createdAt }
  | none =>
      { key := none, keyPreview := none,
        id := v.id, userId := v.userId, name := v.name, isActive := v.isActive,
        lastUsed := v.lastUsed, usageCount := v.usageCount,
        permissions := v.permissions, rateLimit := v.rateLimit,
        expiresAt := v.expiresAt, createdAt := v.createdAt }

/-- Insert a key into a list sorted by `createdAt` descending. -/
def insertByCreatedAtDesc (k : APIKey) : List APIKey → List APIKey
  | [] => [k]
  | x :: xs =>
    if x.createdAt ≤ k.createdAt then k :: x :: xs
    else x :: insertByCreatedAtDesc k xs

/-- `order: createdAt DESC` of the GET /api-keys query. -/
def sortByCreatedAtDesc : List APIKey → List APIKey
  | [] => []
  | x :: xs => insertByCreatedAtDesc x (sortByCreatedAtDesc xs)

/-- GET /api-keys: `findAll` the user's rows newest first with the `key`
attribute excluded, then map every instance through `toJSON`. Returns the
`count` and `data` fields of the reply. -/
def listKeys (store : List APIKey) (userId : Nat) : Nat × List APIKeyJSON :=
  let rows := sortByCreatedAtDesc (store.filter (fun k => k.userId == userId))
  (rows.length, rows.map (fun k => toJSON (excludeKeyAttribute (valuesOf k))))

/-- The 404 body shared by PATCH and DELETE /api-keys/:keyId. -/
def notFoundResponse : ErrorResponse :=
  { status := 404, error := "API key not found." }

/-- `APIKey.findOne({ where: { id: keyId, userId } })`. -/
def findKey (store : List APIKey) (keyId userId : Nat) : Option APIKey :=
  store.find? (fun k => k.id == keyId && k.userId == userId)

/-- PATCH /api-keys/:keyId: find the key by id and owner; 404 when absent;
otherwise assign `name` and `isActive` only when supplied in the body,
save, and reply with the instance's `toJSON` (all attributes loaded here).
Returns the updated store and the reply data. -/
def updateKey (store : List APIKey) (userId keyId : Nat)
    (name? : Option String) (isActive? : Option Bool) :
    Except ErrorResponse (List APIKey × APIKeyJSON) :=
  match findKey store keyId userId with
  | none => .error notFoundResponse
  | some k =>
    let k' : APIKey :=
      { k with name := name?.getD k.name, isActive := isActive?.getD k.isActive }
    .ok (store.map (fun x => if x.id == k.id then k' else x), toJSON (valuesOf k'))

/-- DELETE /api-keys/:keyId: find the key by id and owner; 404 when absent;
otherwise destroy the row and reply with its id and name. -/
def revokeKey (store : List APIKey) (userId keyId : Nat) :
    Except ErrorResponse (List APIKey × Nat × String) :=
  match findKey store keyId userId with
  | none => .error notFoundResponse
  | some k => .ok (store.filter (fun x => !(x.id == k.id)), k.id, k.name)

/-- `APIKey.count({ where: { userId, isActive: true } })`. -/
def countActiveKeys (store : List APIKey) (userId : Nat) : Nat :=
  (store.filter (fun k => k.userId == userId && k.isActive)).length

/-- One day in epoch milliseconds (`expiresAt.setDate(getDate() + N)`). -/
def msPerDay : Int := 86400000

/-- The 400 body for the active-key quota in POST /api-keys. -/
def quotaResponse : ErrorResponse :=
  { status := 400,
    error := "Maximum limit of 10 active API keys reached. Please revoke unused keys." }

/-- The row `APIKey.create` inserts for POST /api-keys: fresh token,
caller's permissions or the column default, `expiresAt = now + N days` when
`expiresInDays` is a positive number, else null; other columns default. -/
def newAPIKey (userId : Nat) (name : String) (permissions? : Option Permissions)
    (expiresInDays? : Option Int) (now : Int) (newId : Nat)
    (randomBytes : List Nat) : APIKey :=
  let expiresAt : Option Int :=
    match expiresInDays? with
    | some d => if 0 < d then some (now + d * msPerDay) else none
    | none => none
  { id := newId, key := generateKey randomBytes, userId := userId, name := name,
    isActive := true, lastUsed := none, usageCount := 0,
    permissions := permissions?.getD defaultPermissions,
    rateLimit := defaultRateLimit, expiresAt := expiresAt, createdAt := now }

/-- POST /api-keys: 400 when `name` is missing; 400 quota error when the
user already has `>= 10` active keys; otherwise insert the new row and
return it (the reply exposes the plaintext key this one time). -/
def createKey (store : List APIKey) (userId : Nat) (name : String)
    (permissions? : Option Permissions) (expiresInDays? : Option Int)
    (now : Int) (newId : Nat) (randomBytes : List Nat) :
    Except ErrorResponse (List APIKey × APIKey) :=
  if name = "" then
    .error { status := 400, error := "Please provide a name for the API key." }
  else if 10 ≤ countActiveKeys store userId then
    .error quotaResponse
  else
    let k := newAPIKey userId name permissions? expiresInDays? now newId randomBytes
    .ok (store ++ [k], k)

/-! ## Session routes (register, login) -/

/-- The 401 body for a missing user or failed password comparison. -/
def invalidCredentialsResponse : ErrorResponse :=
  { status := 401, error := "Invalid email or password." }

/-- The 401 body for a found-but-inactive account. -/
def accountDisabledResponse : ErrorResponse :=
  { status := 401, error := "Account is disabled. Please contact support." }

/-- POST /register: 400 when a field is missing (JS falsy, modelled as the
empty string); otherwise `findOne` on `email = given OR username = given`
and, when a record matches, a 400 naming `Email` if the matched record's
email equals the given one and `Username` otherwise; else insert the new
user. Returns the updated store and the created user on success. -/
def register (store : List User) (username email password : String)
    (newId : Nat) (now : Int) : Except ErrorResponse (List User × User) :=
  if username = "" ∨ email = "" ∨ password = "" then
    .error { status := 400, error := "Please provide username, email, and password." }
  else
    match store.find? (fun u => u.email == email || u.username == username) with
    | some existing =>
      let field := if existing.email == email then "Email" else "Username"
      .error { status := 400, error := field ++ " is already registered." }
    | none =>
      let u : User :=
        { id := newId, username := username, email := email,
          password := password, isActive := true, lastLogin := none,
          createdAt := now }
      .ok (store ++ [u], u)

/-- POST /login: 400 when a field is missing; 401 invalid-credentials when
no user has the email; 401 account-disabled when the user is inactive; 401
invalid-credentials when the password comparison fails; on success update
`lastLogin` and return the user. -/
def login (store : List User) (email password : String) (now : Int) :
    Except ErrorResponse (List User × User) :=
  if email = "" ∨ password = "" then
    .error { status := 400, error := "Please provide email and password." }
  else
    match store.find? (fun u => u.email == email) with
    | none => .error invalidCredentialsResponse
    | some u =>
      if !u.isActive then .error accountDisabledResponse
      else if !comparePassword u password then .error invalidCredentialsResponse
      else
        let u' : User := { u with lastLogin := some now }
        .ok (store.map (fun x => if x.id == u.id then u' else x), u')

/-! ## recordUsage under two concurrent calls (APIKeySQL.js)

`recordUsage` runs `this.lastUsed = new Date(); this.usageCount += 1;
await this.save()`: the counter is read from the instance's in-memory copy
(populated when the row was fetched) and written back whole by `save()` — a
read-modify-write, not an increment-in-place. The model interleaves two
such calls on the same row: each call has two steps, the row fetch (copies
the stored counter into the instance) and the save (stores copy + 1 and
sets last-used). -/

/-- Shared row plus the two in-flight calls' instances. `pc = 0`: not yet
fetched; `pc = 1`: fetched, `loc` holds the copied counter; `pc = 2`:
saved. -/
structure UsageRaceState where
  usageCount : Nat
  lastUsed : Option Int
  pc₁ : Nat
  loc₁ : Nat
  pc₂ : Nat
  loc₂ : Nat
deriving DecidableEq, Repr

/-- One step of call 1 (`t = true`) or call 2 (`t = false`): fetch, then
save of `loc + 1` (the in-memory `usageCount += 1`) with `lastUsed = now`. -/
def recordUsageStep (now : Int) (t : Bool) (s : UsageRaceState) : UsageRaceState :=
  if t then
    match s.pc₁ with
    | 0 => { s with loc₁ := s.usageCount, pc₁ := 1 }
    | 1 => { s with usageCount := s.loc₁ + 1, lastUsed := some now, pc₁ := 2 }
    | _ => s
  else
    match s.pc₂ with
    | 0 => { s with loc₂ := s.usageCount, pc₂ := 1 }
    | 1 => { s with usageCount := s.loc₂ + 1, lastUsed := some now, pc₂ := 2 }
    | _ => s

/-- Run an interleaving (list of thread choices) of the two calls. -/
def runSchedule (now : Int) (sched : List Bool) (s : UsageRaceState) :
    UsageRaceState :=
  sched.foldl (fun s t => recordUsageStep now t s) s

/-- Both calls pending on a row with the given stored counter. -/
def initialUsageState (n : Nat) : UsageRaceState :=
  { usageCount := n, lastUsed := none, pc₁ := 0, loc₁ := 0, pc₂ := 0, loc₂ := 0 }

/-- Modelled from the spec: the increment-in-place the spec demands
("atomically increments the usage counter and sets last-used to now", an
"atomic update (increment-in-place), not read-modify-write in application
memory"), which no source file implements. Each call is one indivisible
step on the stored row. -/
def atomicIncrementStep (now : Int) (t : Bool) (s : UsageRaceState) :
    UsageRaceState :=
  if t then
    match s.pc₁ with
    | 0 => { s with usageCount := s.usageCount + 1, lastUsed := some now, pc₁ := 2 }
    | _ => s
  else
    match s.pc₂ with
    | 0 => { s with usageCount := s.usageCount + 1, lastUsed := some now, pc₂ := 2 }
    | _ => s

/-- Run an interleaving of the two atomic-increment calls. -/
def runAtomicSchedule (now : Int) (sched : List Bool) (s : UsageRaceState) :
    UsageRaceState :=
  sched.foldl (fun s t => atomicIncrementStep now t s) s

/-! ## TokenMetadataFetcher.validateTokenMint (metadata.js) -/

/-- `validateTokenMint(mintAddress)`: `new PublicKey(mintAddress)` then
`await getMint(connection, mintPublicKey)` inside try/catch — `true` after
both succeed, `false` on any throw (invalid public key or failed mint
lookup). The two external SDK calls are inputs; a JS throw is `.error`. -/
def validateTokenMint {PubKey MintInfo : Type}
    (parsePublicKey : String → Except String PubKey)
    (getMint : PubKey → Except String MintInfo)
    (mintAddress : String) : Bool :=
  match parsePublicKey mintAddress with
  | .error _ => false
  | .ok pk =>
    match getMint pk with
    | .error _ => false
    | .ok _ => true

/-- A concrete key record used to instantiate theorems with hypotheses. -/
def sampleKey : APIKey :=
  { id := 1, key := "cp_x", userId := 1, name := "k",
    isActive := true, lastUsed := none, usageCount := 0,
    permissions := defaultPermissions, rateLimit := defaultRateLimit,
    expiresAt := some 5, createdAt := 0 }

/-- A concrete stored key of user 7 with a full-form token
(`cp_` + "ab" repeated 32 times). -/
def listedKey : APIKey :=
  { id := 1, key := generateKey (List.replicate 32 171), userId := 7,
    name := "prod", isActive := true, lastUsed := none, usageCount := 3,
    permissions := defaultPermissions, rateLimit := defaultRateLimit,
    expiresAt := none, createdAt := 100 }

/-- A concrete key owned by user 2, targeted by requests from user 1. -/
def otherUsersKey : APIKey :=
  { id := 5, key := "cp_y", userId := 2, name := "theirs",
    isActive := true, lastUsed := none, usageCount := 0,
    permissions := defaultPermissions, rateLimit := defaultRateLimit,
    expiresAt := none, createdAt := 0 }

/-- Ten active keys all owned by user 1. -/
def tenActiveKeys : List APIKey :=
  (List.range 10).map (fun i =>
    { id := i, key := "cp_k", userId := 1, name := "k", isActive := true,
      lastUsed := none, usageCount := 0, permissions := defaultPermissions,
      rateLimit := defaultRateLimit, expiresAt := none, createdAt := 0 })

/-- A stored user whose username is `carol`. -/
def regUserA : User :=
  { id := 1, username := "carol", email := "a@x", password := "p1",
    isActive := true, lastLogin := none, createdAt := 0 }

/-- A stored user whose email is `c@y`. -/
def regUserB : User :=
  { id := 2, username := "dave", email := "c@y", password := "p2",
    isActive := true, lastLogin := none, createdAt := 0 }

/-- A store where a registration with username `carol` and email `c@y`
collides with two different records. -/
def regStore : List User := [regUserA, regUserB]

/-- A stored user whose account is disabled. -/
def disabledUser : User :=
  { id := 3, username := "eve", email := "e@x", password := "pw",
    isActive := false, lastLogin := none, createdAt := 0 }

end ChainProof

namespace ChainProof

/-! ## Claim C6: isExpired -/

/-- C6: `isExpired` is true iff the expiry timestamp is set and strictly in
the past at the time of the check; a null expiry never expires and a future
timestamp is not expired. -/
theorem isExpired_iff_set_and_past (now : Int) (k : APIKey) :
    (isExpired now k = true ↔ ∃ t, k.expiresAt = some t ∧ t < now) ∧
    (k.expiresAt = none → isExpired now k = false) ∧
    (∀ t, k.expiresAt = some t → now ≤ t → isExpired now k = false) := by
  refine ⟨?_, ?_, ?_⟩
  · unfold isExpired
    cases h : k.expiresAt with
    | none => simp
    | some t =>
      simp only [decide_eq_true_eq, Option.some.injEq]
      constructor
      · intro hlt
        exact ⟨t, rfl, by omega⟩
      · rintro ⟨t', ht', hlt⟩
        subst ht'
        omega
  · intro h
    unfold isExpired
    rw [h]
  · intro t ht hle
    unfold isExpired
    rw [ht]
    simpa using by omega

/-- A helper length lemma for the hex rendering: two characters per byte. -/
theorem length_flatMap_byteToHex (l : List Nat) :
    (l.flatMap byteToHex).length = 2 * l.length := by
  induction l with
  | nil => rfl
  | cons b t ih => simp [byteToHex, ih]; omega

/-- Witness for C6 at concrete inputs: `sampleKey` has expiry 5, in the
past of now = 10, and is expired. -/
theorem isExpired_iff_set_and_past_witness :
    isExpired 10 sampleKey = true :=
  ((isExpired_iff_set_and_past 10 sampleKey).1).2 ⟨5, rfl, by decide⟩

/-! ## Claim C7: generateKey format -/

/-- C7: every token generated from 32 random bytes is the fixed prefix,
an underscore, then exactly 64 lowercase hexadecimal characters. -/
theorem generateKey_format (bytes : List Nat)
    (hlen : bytes.length = 32) (hbyte : ∀ b ∈ bytes, b < 256) :
    ∃ s : String, generateKey bytes = "cp" ++ "_" ++ s ∧
      s.length = 64 ∧ ∀ c ∈ s.data, isLowerHexDigit c = true := by
  refine ⟨bytesToHex bytes, rfl, ?_, ?_⟩
  · show (bytes.flatMap byteToHex).length = 64
    rw [length_flatMap_byteToHex, hlen]
  · intro c hc
    show isLowerHexDigit c = true
    have hc' : c ∈ bytes.flatMap byteToHex := hc
    rw [List.mem_flatMap] at hc'
    obtain ⟨b, hb, hcb⟩ := hc'
    have hb256 := hbyte b hb
    have hnib : ∀ n < 16, isLowerHexDigit (hexDigit n) = true := by decide
    simp only [byteToHex, List.mem_cons, List.not_mem_nil, or_false] at hcb
    rcases hcb with h | h
    · rw [h]; exact hnib _ (by omega)
    · rw [h]; exact hnib _ (Nat.mod_lt _ (by omega))

/-- Witness for C7 at a concrete 32-byte input. -/
theorem generateKey_format_witness :
    ∃ s : String, generateKey (List.replicate 32 171) = "cp" ++ "_" ++ s ∧
      s.length = 64 ∧ ∀ c ∈ s.data, isLowerHexDigit c = true :=
  generateKey_format (List.replicate 32 171) (by decide) (by decide)

/-! ## Claim C1: listKeys redaction

GET /api-keys excludes the `key` attribute from the query, so inside
`toJSON` the value `values.key` is undefined and the preview branch is
skipped: the listed items carry neither the raw token nor a preview. The
preview appears only where the `key` attribute is loaded (e.g. the PATCH
reply). -/

/-- C1 (evaluation at the failing input): the single listed item for user 7
has no raw `key` field, as claimed — but also no `keyPreview`, against the
claim; the same record serialized with its `key` attribute loaded does get
the `...`-prefixed last-8-characters preview. -/
theorem listKeys_redacts_but_omits_preview :
    (listKeys [listedKey] 7).2.map APIKeyJSON.key = [none] ∧
    (listKeys [listedKey] 7).2.map APIKeyJSON.keyPreview = [none] ∧
    (toJSON (valuesOf listedKey)).keyPreview = some "...abababab" := by
  refine ⟨rfl, rfl, ?_⟩
  decide

/-! ## Claim C3: not-owned and nonexistent key ids are indistinguishable -/

/-- `findOne({ id, userId })` finds nothing when the user owns no key with
that id. -/
theorem findKey_eq_none_of (store : List APIKey) (kid u : Nat)
    (h : ∀ k ∈ store, ¬(k.id = kid ∧ k.userId = u)) :
    findKey store kid u = none := by
  unfold findKey
  rw [List.find?_eq_none]
  intro x hx
  simp only [Bool.and_eq_true, beq_iff_eq]
  exact h x hx

/-- C3: when no key with the given id belongs to the user, PATCH and
DELETE /api-keys/:keyId both answer the 404 not-found body, and the answer
is identical for any other no-owned-key situation — in particular a key id
owned by another user and a key id absent from the store produce the same
response. -/
theorem updateKey_revokeKey_not_owned (store : List APIKey) (u kid : Nat)
    (name? : Option String) (isActive? : Option Bool)
    (h : ∀ k ∈ store, ¬(k.id = kid ∧ k.userId = u)) :
    updateKey store u kid name? isActive? = .error notFoundResponse ∧
    revokeKey store u kid = .error notFoundResponse ∧
    ∀ store₂ u₂ kid₂,
      (∀ k ∈ store₂, ¬(k.id = kid₂ ∧ k.userId = u₂)) →
      updateKey store u kid name? isActive? =
        updateKey store₂ u₂ kid₂ name? isActive? ∧
      revokeKey store u kid = revokeKey store₂ u₂ kid₂ := by
  have h1 : findKey store kid u = none := findKey_eq_none_of store kid u h
  refine ⟨?_, ?_, ?_⟩
  · unfold updateKey; rw [h1]
  · unfold revokeKey; rw [h1]
  · intro s₂ u₂ kid₂ h₂
    have h₂' : findKey s₂ kid₂ u₂ = none := findKey_eq_none_of s₂ kid₂ u₂ h₂
    constructor
    · unfold updateKey; rw [h1, h₂']
    · unfold revokeKey; rw [h1, h₂']

/-- Witness for C3: user 1 PATCHes key id 5, which exists but is owned by
user 2; the reply is the 404 body. -/
theorem updateKey_revokeKey_not_owned_witness :
    updateKey [otherUsersKey] 1 5 (some "mine") none = .error notFoundResponse :=
  (updateKey_revokeKey_not_owned [otherUsersKey] 1 5 (some "mine") none
    (by decide)).1

/-! ## Claim C5: active-key quota -/

/-- C5: with `name` supplied, POST /api-keys answers the 400 quota body
(message starting "Maximum limit of 10 active API keys reached") whenever
the user owns 10 or more active keys, succeeds by inserting the new active
key whenever the active count is below 10, and inactive keys do not count
toward the quota. -/
theorem createKey_quota (store : List APIKey) (u : Nat) (name : String)
    (permissions? : Option Permissions) (expiresInDays? : Option Int)
    (now : Int) (newId : Nat) (randomBytes : List Nat)
    (hname : name ≠ "") :
    (10 ≤ countActiveKeys store u →
      createKey store u name permissions? expiresInDays? now newId randomBytes =
        .error quotaResponse ∧
      quotaResponse.status = 400 ∧
      List.isPrefixOf "Maximum limit of 10 active API keys reached".data
        quotaResponse.error.data = true) ∧
    (countActiveKeys store u < 10 →
      createKey store u name permissions? expiresInDays? now newId randomBytes =
        .ok (store ++ [newAPIKey u name permissions? expiresInDays? now newId randomBytes],
          newAPIKey u name permissions? expiresInDays? now newId randomBytes) ∧
      (newAPIKey u name permissions? expiresInDays? now newId randomBytes).isActive
        = true) ∧
    (∀ k : APIKey, k.isActive = false →
      countActiveKeys (k :: store) u = countActiveKeys store u) := by
  refine ⟨?_, ?_, ?_⟩
  · intro h10
    refine ⟨?_, rfl, by decide⟩
    unfold createKey
    rw [if_neg hname, if_pos h10]
  · intro hlt
    refine ⟨?_, rfl⟩
    unfold createKey
    rw [if_neg hname, if_neg (by omega)]
  · intro k hk
    simp [countActiveKeys, List.filter_cons, hk]

/-- Witness for C5: an 11th creation attempt by user 1, who owns ten
active keys, answers the quota body. -/
theorem createKey_quota_witness :
    createKey tenActiveKeys 1 "svc" none none 0 99 [] = .error quotaResponse :=
  ((createKey_quota tenActiveKeys 1 "svc" none none 0 99 [] (by decide)).1
    (by decide)).1

/-! ## Claim C9: updateKey changes only the supplied fields -/

/-- C9: on an owned key, PATCH /api-keys/:keyId leaves the token,
permissions, rate limit, usage count, last-used, expiry, id, owner and
creation time unchanged; `name` becomes the supplied value when present
(else unchanged), likewise `isActive`; other rows are touched only if they
share the key's id. -/
theorem updateKey_frame (store : List APIKey) (u kid : Nat) (k : APIKey)
    (name? : Option String) (isActive? : Option Bool)
    (hfind : findKey store kid u = some k) :
    ∃ k' : APIKey,
      updateKey store u kid name? isActive? =
        .ok (store.map (fun x => if x.id == k.id then k' else x),
          toJSON (valuesOf k')) ∧
      k'.id = k.id ∧ k'.key = k.key ∧ k'.userId = k.userId ∧
      k'.lastUsed = k.lastUsed ∧ k'.usageCount = k.usageCount ∧
      k'.permissions = k.permissions ∧ k'.rateLimit = k.rateLimit ∧
      k'.expiresAt = k.expiresAt ∧ k'.createdAt = k.createdAt ∧
      k'.name = name?.getD k.name ∧ k'.isActive = isActive?.getD k.isActive := by
  refine ⟨{ k with name := name?.getD k.name, isActive := isActive?.getD k.isActive },
    ?_, rfl, rfl, rfl, rfl, rfl, rfl, rfl, rfl, rfl, rfl, rfl⟩
  unfold updateKey
  rw [hfind]

/-- Witness for C9: renaming `sampleKey` (owned by user 1, id 1). -/
theorem updateKey_frame_witness :
    ∃ k' : APIKey,
      updateKey [sampleKey] 1 1 (some "renamed") none =
        .ok ([sampleKey].map (fun x => if x.id == sampleKey.id then k' else x),
          toJSON (valuesOf k')) ∧
      k'.id = sampleKey.id ∧ k'.key = sampleKey.key ∧
      k'.userId = sampleKey.userId ∧ k'.lastUsed = sampleKey.lastUsed ∧
      k'.usageCount = sampleKey.usageCount ∧
      k'.permissions = sampleKey.permissions ∧
      k'.rateLimit = sampleKey.rateLimit ∧
      k'.expiresAt = sampleKey.expiresAt ∧
      k'.createdAt = sampleKey.createdAt ∧
      k'.name = (some "renamed").getD sampleKey.name ∧
      k'.isActive = (none : Option Bool).getD sampleKey.isActive :=
  updateKey_frame [sampleKey] 1 1 sampleKey (some "renamed") none (by decide)

/-! ## Claim C2: recordUsage under concurrency

The source increments in application memory (`this.usageCount += 1`
against the copy fetched with the row, then `save()` writes it back), so
two interleaved calls can both read the same stored value and the second
save overwrites the first: an increment is lost. The spec-modelled
`atomicIncrementStep` (increment-in-place) does not lose it. -/

/-- C2 (evaluation at the failing interleaving): both read-modify-write
calls complete (`pc = 2`) under the schedule fetch₁ fetch₂ save₁ save₂,
yet the stored counter went from 0 to 1, not 2 — one increment is lost;
run back-to-back the two calls do reach 2, and the spec's
increment-in-place reaches 2 under either interleaving of the two
one-step calls. -/
theorem recordUsage_lost_update :
    (runSchedule 5 [true, false, true, false] (initialUsageState 0)).pc₁ = 2 ∧
    (runSchedule 5 [true, false, true, false] (initialUsageState 0)).pc₂ = 2 ∧
    (runSchedule 5 [true, false, true, false] (initialUsageState 0)).usageCount = 1 ∧
    (runSchedule 5 [true, true, false, false] (initialUsageState 0)).usageCount = 2 ∧
    (runAtomicSchedule 5 [true, false] (initialUsageState 0)).usageCount = 2 ∧
    (runAtomicSchedule 5 [false, true] (initialUsageState 0)).usageCount = 2 := by
  decide

/-! ## Claim C4: duplicate registration -/

/-- C4 counterexample: against `regStore`, registering username `carol`
(taken by `regUserA`) with email `c@y` (taken by `regUserB`): the email
does collide, yet the reply message is `Username is already registered.`,
because `findOne` returned the username-colliding record first. -/
theorem register_conflict_counterexample :
    (∃ u ∈ regStore, u.email = "c@y") ∧
    register regStore "carol" "c@y" "pw" 3 0 =
      .error { status := 400, error := "Username is already registered." } ∧
    register regStore "carol" "c@y" "pw" 3 0 ≠
      .error { status := 400, error := "Email is already registered." } := by
  have hval : register regStore "carol" "c@y" "pw" 3 0 =
      .error { status := 400, error := "Username is already registered." } := rfl
  refine ⟨by decide, hval, fun h => ?_⟩
  rw [hval] at h
  simp only [Except.error.injEq, ErrorResponse.mk.injEq] at h
  exact absurd h.2 (by decide)

/-- C4 as amended: on a colliding registration the reply is a 400 naming a
genuinely colliding field — the one of the record `findOne` returned:
`Email` when that record's email equals the given one, else `Username`.
When only one field collides the message names it. No record is created. -/
theorem register_conflict (store : List User) (username email password : String)
    (newId : Nat) (now : Int)
    (hu : username ≠ "") (he : email ≠ "") (hp : password ≠ "")
    (hconf : (∃ u ∈ store, u.email = email) ∨ (∃ u ∈ store, u.username = username)) :
    ∃ r : ErrorResponse,
      register store username email password newId now = .error r ∧
      r.status = 400 ∧
      (r.error = "Email is already registered." ∨
        r.error = "Username is already registered.") ∧
      (r.error = "Email is already registered." → ∃ u ∈ store, u.email = email) ∧
      (r.error = "Username is already registered." →
        ∃ u ∈ store, u.username = username) ∧
      ((¬∃ u ∈ store, u.username = username) →
        r.error = "Email is already registered.") ∧
      ((¬∃ u ∈ store, u.email = email) →
        r.error = "Username is already registered.") ∧
      ∀ st, register store username email password newId now ≠ .ok st := by
  have hne : ¬(username = "" ∨ email = "" ∨ password = "") := by tauto
  have hpsome :
      (store.find? (fun u => u.email == email || u.username == username)).isSome := by
    rw [List.find?_isSome]
    rcases hconf with ⟨u, hm, hq⟩ | ⟨u, hm, hq⟩
    · exact ⟨u, hm, by simp [hq]⟩
    · exact ⟨u, hm, by simp [hq]⟩
  obtain ⟨ex, hfind⟩ := Option.isSome_iff_exists.mp hpsome
  have hexmem : ex ∈ store := List.mem_of_find?_eq_some hfind
  have hexp := List.find?_some hfind
  by_cases hcase : ex.email = email
  · have hreg : register store username email password newId now =
        .error { status := 400, error := "Email is already registered." } := by
      unfold register
      rw [if_neg hne, hfind]
      simp [hcase]
    refine ⟨_, hreg, rfl, Or.inl rfl, fun _ => ⟨ex, hexmem, hcase⟩, ?_,
      fun _ => rfl, ?_, ?_⟩
    · intro h
      exact absurd h (by decide)
    · intro hne2
      exact absurd ⟨ex, hexmem, hcase⟩ hne2
    · intro st h
      rw [hreg] at h
      exact Except.noConfusion h
  · have husername : ex.username = username := by
      have hf : (ex.email == email) = false := by
        simp [hcase]
      simp [hf] at hexp
      exact hexp
    have hreg : register store username email password newId now =
        .error { status := 400, error := "Username is already registered." } := by
      unfold register
      rw [if_neg hne, hfind]
      simp [hcase]
    refine ⟨_, hreg, rfl, Or.inr rfl, ?_, fun _ => ⟨ex, hexmem, husername⟩, ?_,
      fun _ => rfl, ?_⟩
    · intro h
      exact absurd h (by decide)
    · intro hne2
      exact absurd ⟨ex, hexmem, husername⟩ hne2
    · intro st h
      rw [hreg] at h
      exact Except.noConfusion h

/-- Witness for C4 as amended: registering the taken username `carol` with
a fresh email against a one-user store. -/
theorem register_conflict_witness :
    ∃ r : ErrorResponse,
      register [regUserA] "carol" "new@x" "pw" 3 0 = .error r ∧
      r.status = 400 ∧
      (r.error = "Email is already registered." ∨
        r.error = "Username is already registered.") ∧
      (r.error = "Email is already registered." →
        ∃ u ∈ [regUserA], u.email = "new@x") ∧
      (r.error = "Username is already registered." →
        ∃ u ∈ [regUserA], u.username = "carol") ∧
      ((¬∃ u ∈ [regUserA], u.username = "carol") →
        r.error = "Email is already registered.") ∧
      ((¬∃ u ∈ [regUserA], u.email = "new@x") →
        r.error = "Username is already registered.") ∧
      ∀ st, register [regUserA] "carol" "new@x" "pw" 3 0 ≠ .ok st :=
  register_conflict [regUserA] "carol" "new@x" "pw" 3 0
    (by decide) (by decide) (by decide) (by decide)

/-! ## Claim C8: uniform login failures -/

/-- C8: a login failing because no user has the email, because the account
is disabled, or because the password comparison fails always answers 401;
the no-user and bad-password replies are one and the same body, and the
disabled-account body is the single distinguishable exception. -/
theorem login_uniform_auth_errors (store : List User) (email password : String)
    (now : Int) (he : email ≠ "") (hp : password ≠ "") :
    (store.find? (fun u => u.email == email) = none →
      login store email password now = .error invalidCredentialsResponse) ∧
    (∀ u, store.find? (fun u => u.email == email) = some u →
      u.isActive = false →
      login store email password now = .error accountDisabledResponse) ∧
    (∀ u, store.find? (fun u => u.email == email) = some u →
      u.isActive = true → comparePassword u password = false →
      login store email password now = .error invalidCredentialsResponse) ∧
    invalidCredentialsResponse.status = 401 ∧
    accountDisabledResponse.status = 401 ∧
    invalidCredentialsResponse.error ≠ accountDisabledResponse.error := by
  have hne : ¬(email = "" ∨ password = "") := by tauto
  refine ⟨?_, ?_, ?_, rfl, rfl, by decide⟩
  · intro h
    unfold login
    rw [if_neg hne, h]
  · intro u hfind hact
    unfold login
    rw [if_neg hne, hfind]
    simp [hact]
  · intro u hfind hact hcmp
    unfold login
    rw [if_neg hne, hfind]
    simp [hact, hcmp]

/-- Witness for C8: logging into the disabled account. -/
theorem login_uniform_auth_errors_witness :
    login [disabledUser] "e@x" "pw" 0 = .error accountDisabledResponse :=
  (login_uniform_auth_errors [disabledUser] "e@x" "pw" 0
    (by decide) (by decide)).2.1 disabledUser (by decide) rfl

/-! ## Claim C10: validateTokenMint is total -/

/-- C10: `validateTokenMint` always returns a boolean (the Lean model is a
total function into `Bool`; the bare catch absorbs every throw): `true`
exactly when the address parses and the mint lookup succeeds, `false`
exactly when parsing throws or the lookup throws. -/
theorem validateTokenMint_total_spec {PubKey MintInfo : Type}
    (parsePublicKey : String → Except String PubKey)
    (getMint : PubKey → Except String MintInfo) (addr : String) :
    (validateTokenMint parsePublicKey getMint addr = true ↔
      ∃ pk m, parsePublicKey addr = .ok pk ∧ getMint pk = .ok m) ∧
    (validateTokenMint parsePublicKey getMint addr = false ↔
      (∃ e, parsePublicKey addr = .error e) ∨
      ∃ pk e, parsePublicKey addr = .ok pk ∧ getMint pk = .error e) := by
  unfold validateTokenMint
  cases hp : parsePublicKey addr with
  | error e => simp [hp]
  | ok pk =>
    cases hg : getMint pk with
    | error e2 => simp [hp, hg]
    | ok m => simp [hp, hg]

end ChainProof
